import Mathlib

/-!
Verification of the feature-extraction and scoring pipeline of the
wit-hackathon deepfake-detection backend.

The definitions below are a shallow embedding of the relevant parts of
`backend/feature_extractor.py` and `backend/app.py`.  Python floats are
modelled by rationals wherever the code performs only field operations and
comparisons; Euclidean distances (which need a square root) are modelled
over the reals.  Optional values (`None`) become `Option`, and effectful
code (the temporary-WAV fallback of audio extraction) is modelled by
explicit state passing over an environment describing the outcomes of the
external library calls.
-/

set_option allowUnsafeReducibility true in
attribute [semireducible] Rat.inv Rat.mul Rat.add Rat.sub Rat.ofScientific

namespace NotReally

/-- Embedding of the dataclass `VideoFeatureStats`. -/
structure VideoFeatureStats where
  avg_blink_rate_per_minute : ℚ
  facial_jitter_std_dev : ℚ
  frames_analyzed : ℕ
deriving DecidableEq

/-- Embedding of the dataclass `AudioFeatureStats`. -/
structure AudioFeatureStats where
  audio_mfcc_mean : ℚ
  audio_mfcc_std : ℚ
  sample_rate : ℕ
  duration_seconds : ℚ
deriving DecidableEq

/-- Embedding of the dataclass `MetadataStats` (numeric and flag fields;
string fields kept as `Option String`). -/
structure MetadataStats where
  container_format : Option String
  file_size_bytes : Option ℤ
  duration_seconds : Option ℚ
  bit_rate : Option ℤ
  has_video : Bool
  has_audio : Bool
  video_codec : Option String
  video_width : Option ℤ
  video_height : Option ℤ
  video_avg_fps : Option ℚ
  audio_codec : Option String
  audio_sample_rate : Option ℤ
  audio_channels : Option ℤ
deriving DecidableEq

/-- Embedding of the dataclass `ExtractedFeatures`: each of the three
summaries is optional. -/
structure ExtractedFeatures where
  video : Option VideoFeatureStats
  audio : Option AudioFeatureStats
  metadata : Option MetadataStats
deriving DecidableEq

/-- Embedding of `ExtractedFeatures.to_feature_vector`.  Each slot reads
the corresponding field when its summary (and, for metadata, the field
itself) is present and is `0` otherwise; integer fields are cast to the
numeric type exactly as `float(...)` does in the source. -/
def to_feature_vector (f : ExtractedFeatures) : List ℚ :=
  [ (f.video.map (fun v => v.avg_blink_rate_per_minute)).getD 0,
    (f.video.map (fun v => v.facial_jitter_std_dev)).getD 0,
    (f.audio.map (fun a => a.audio_mfcc_mean)).getD 0,
    (f.audio.map (fun a => a.audio_mfcc_std)).getD 0,
    (f.metadata.bind (fun m => m.duration_seconds)).getD 0,
    ((f.metadata.bind (fun m => m.bit_rate)).map (fun b => (b : ℚ))).getD 0,
    (f.metadata.bind (fun m => m.video_avg_fps)).getD 0,
    ((f.metadata.bind (fun m => m.video_width)).map (fun b => (b : ℚ))).getD 0,
    ((f.metadata.bind (fun m => m.video_height)).map (fun b => (b : ℚ))).getD 0,
    ((f.metadata.bind (fun m => m.audio_sample_rate)).map (fun b => (b : ℚ))).getD 0 ]

/-- Mean over a list of numbers, the embedding of `np.mean` on the
flattened MFCC grid (`mfcc_mean = float(np.mean(mfcc))`). -/
def npMean (l : List ℚ) : ℚ := l.sum / l.length

/-- Embedding of `np.median`: sort, take the middle element for odd
length, the average of the two middle elements for even length. -/
def npMedian (l : List ℚ) : ℚ :=
  let s := l.insertionSort (· ≤ ·)
  if s.length % 2 = 1 then s.getD (s.length / 2) 0
  else (s.getD (s.length / 2 - 1) 0 + s.getD (s.length / 2) 0) / 2

/-- Python truncating conversion `int(q)`: toward zero. -/
def pyInt (q : ℚ) : ℤ := if 0 ≤ q then ⌊q⌋ else ⌈q⌉

/-- Embedding of line 167 of `feature_extractor.py`:
`min_frames_between_blinks = max(2, int((fps / frame_stride) * 0.15))`. -/
def min_frames_between_blinks (fps : ℚ) (k : ℕ) : ℕ :=
  max 2 (pyInt ((fps / (k : ℚ)) * (15 / 100))).toNat

/-- Embedding of the `deque(maxlen=15)` append: the new sample goes to the
back and the oldest samples are evicted so that at most 15 remain. -/
def pushWindow (w : List ℚ) (x : ℚ) : List ℚ :=
  let w' := w ++ [x]
  if 15 < w'.length then w'.drop (w'.length - 15) else w'

/-- Embedding of `ear = float(sum(ear_window) / len(ear_window))`. -/
def smoothedEar (w : List ℚ) : ℚ := w.sum / (w.length : ℚ)

/-- Embedding of the adaptive-threshold block (lines 199-206): once the
window holds at least 5 samples, `max(static, median - 1.5 * MAD)`;
below 5 samples the static threshold is used unmodified. -/
def adaptiveThr (thr : ℚ) (w : List ℚ) : ℚ :=
  if 5 ≤ w.length then
    let med := npMedian w
    let mad := npMedian (w.map (fun x => |x - med|))
    max thr (med - 3 / 2 * mad)
  else thr

/-- Running state of the blink detector: the EAR sliding window, the
"EAR was above threshold" flag (initially true) and the analysed-frame
counter since the last counted blink (initially 9999). -/
structure BlinkState where
  window : List ℚ
  prev_ear_above : Bool
  frames_since_last_blink : ℕ
deriving DecidableEq

/-- Initial blink-detector state (lines 164-166 of the source). -/
def initBlinkState : BlinkState := ⟨[], true, 9999⟩

/-- Whether the analysed frame with raw EAR sample `raw` fires a blink in
state `s` (line 210): falling edge below the adaptive threshold while the
refractory counter has reached `g` analysed frames. -/
def blinkFire (thr : ℚ) (g : ℕ) (s : BlinkState) (raw : ℚ) : Bool :=
  let w := pushWindow s.window raw
  s.prev_ear_above && decide (smoothedEar w < adaptiveThr thr w)
    && decide (g ≤ s.frames_since_last_blink)

/-- State after one analysed frame (lines 196-214): push the raw sample,
reset the refractory counter on a fired blink, then increment it, and
record whether the smoothed EAR ended up above the threshold. -/
def blinkNext (thr : ℚ) (g : ℕ) (s : BlinkState) (raw : ℚ) : BlinkState :=
  let w := pushWindow s.window raw
  { window := w
    prev_ear_above := ! decide (smoothedEar w < adaptiveThr thr w)
    frames_since_last_blink :=
      (if blinkFire thr g s raw then 0 else s.frames_since_last_blink) + 1 }

/-- Positions (analysed-frame indices, starting at `t`) at which the blink
state machine counts a blink while consuming the raw EAR samples `es`. -/
def blinkPositionsAux (thr : ℚ) (g : ℕ) : List ℚ → BlinkState → ℕ → List ℕ
  | [], _, _ => []
  | e :: es, s, t =>
    if blinkFire thr g s e then
      t :: blinkPositionsAux thr g es (blinkNext thr g s e) (t + 1)
    else
      blinkPositionsAux thr g es (blinkNext thr g s e) (t + 1)

/-- Analysed-frame positions of all counted blinks for a whole video,
starting from the initial detector state. -/
def blinkPositions (thr : ℚ) (g : ℕ) (ears : List ℚ) : List ℕ :=
  blinkPositionsAux thr g ears initBlinkState 0

/-- Total number of blinks counted on the raw EAR sample stream `ears`. -/
def blinkCount (thr : ℚ) (g : ℕ) (ears : List ℚ) : ℕ :=
  (blinkPositions thr g ears).length

/-- Embedding of line 146: `fps = cap.get(cv2.CAP_PROP_FPS) or 30.0`.
A missing or zero reported frame rate is replaced by 30. -/
def effectiveFps (reported : Option ℚ) : ℚ :=
  match reported with
  | none => 30
  | some v => if v = 0 then 30 else v

/-- Embedding of line 240:
`minutes_processed = (frames_analyzed * frame_stride) / (fps * 60.0) if fps > 0 else 0`. -/
def minutes_processed (fps : ℚ) (k : ℕ) (frames_analyzed : ℕ) : ℚ :=
  if 0 < fps then ((frames_analyzed : ℚ) * (k : ℚ)) / (fps * 60) else 0

/-- Embedding of line 241:
`avg_blink_rate = (blinks / minutes_processed) if minutes_processed > 0 else float(blinks)`. -/
def avg_blink_rate (fps : ℚ) (k : ℕ) (frames_analyzed blinks : ℕ) : ℚ :=
  if 0 < minutes_processed fps k frames_analyzed then
    (blinks : ℚ) / minutes_processed fps k frames_analyzed
  else (blinks : ℚ)

/-- Embedding of the flag list built in `analyze_video` (app.py lines
68-74), in source order. -/
def summaryParts (blink_rate facial_jitter audio_mfcc_variance : ℚ) : List String :=
  (if blink_rate < 10 then ["low blink rate"] else []) ++
  (if 2 / 10 ≤ facial_jitter then ["high facial jitter"] else []) ++
  (if 3 / 10 ≤ audio_mfcc_variance then ["synthetic-sounding audio patterns"] else [])

/-- Embedding of the summary generation in `analyze_video` (app.py lines
64-76). -/
def summary_text (authenticity_score blink_rate facial_jitter audio_mfcc_variance : ℚ) :
    String :=
  if 80 ≤ authenticity_score then "This appears to be a real video."
  else
    let parts := summaryParts blink_rate facial_jitter audio_mfcc_variance
    let reason := if parts.isEmpty then "multiple subtle cues"
      else String.intercalate ", " parts
    "Potential deepfake indicators: " ++ reason ++ "."

/-- Embedding of `euclidean_distance` (line 116): `math.hypot` of the
coordinate differences, i.e. the Euclidean distance in the plane. -/
noncomputable def euclidean_distance (p q : ℝ × ℝ) : ℝ :=
  Real.sqrt ((p.1 - q.1) ^ 2 + (p.2 - q.2) ^ 2)

/-- Embedding of `eye_aspect_ratio` (lines 120-131) on the six eye
landmark points: `(d(p2,p6) + d(p3,p5)) / (2 * d(p1,p4))`, with result 0
when the horizontal distance `d(p1,p4)` is 0. -/
noncomputable def eye_aspect_ratio (p1 p2 p3 p4 p5 p6 : ℝ × ℝ) : ℝ :=
  if euclidean_distance p1 p4 = 0 then 0
  else (euclidean_distance p2 p6 + euclidean_distance p3 p5)
    / (2 * euclidean_distance p1 p4)

/-- Environment describing the outcomes of the external calls made during
audio extraction: whether the `ffmpeg` module is importable, whether the
re-encode `.run()` call raises, the probed duration of the re-encoded WAV
(`none` models a probe failure or a probe with no audio stream, in which
case the duration stays 0), the sample list returned by the direct
`librosa.load` on the video (`none` models a raised exception), the sample
list returned by `librosa.load` on the temporary WAV (`none` models a
raised exception), and the scalar summaries of the externally computed
MFCC grid. -/
structure AudioEnv where
  ffmpegAvailable : Bool
  runRaises : Bool
  probeDuration : Option ℚ
  directLoad : Option (List ℚ)
  wavLoad : Option (List ℚ)
  mfccMeanOut : ℚ
  mfccStdOut : ℚ
deriving DecidableEq

/-- Result of `extract_audio_features`: either the Python function raises,
or it returns (`None` or a summary record). -/
inductive AudioOutcome where
  | raised : AudioOutcome
  | returned : Option AudioFeatureStats → AudioOutcome
deriving DecidableEq

/-- Embedding of `_extract_audio_with_ffmpeg` (lines 255-281).  The first
component is the returned value (`none` for the `return None` paths, and
`(sample rate, probed duration)` for success, the WAV path being implicit);
the second component records whether the temporary WAV file created by
`mkstemp` still exists on disk when the function returns. -/
def extract_audio_with_ffmpeg (env : AudioEnv) : Option (ℕ × ℚ) × Bool :=
  if env.ffmpegAvailable = false then (none, false)
  else if env.runRaises then (none, true)
  else (some (16000, env.probeDuration.getD 0), true)

/-- Embedding of `extract_audio_features` (lines 284-323).  The second
component records whether the temporary WAV file of the ffmpeg fallback
still exists on disk when the function terminates; the `try/finally` around
the fallback `librosa.load` removes it on both the success and the raising
branch of that load. -/
def extract_audio_features (env : AudioEnv) : AudioOutcome × Bool :=
  match env.directLoad with
  | some y =>
    if y.length = 0 then (AudioOutcome.returned none, false)
    else
      (AudioOutcome.returned (some
        ⟨env.mfccMeanOut, env.mfccStdOut, 16000, (y.length : ℚ) / 16000⟩), false)
  | none =>
    match extract_audio_with_ffmpeg env with
    | (none, leaked) => (AudioOutcome.returned none, leaked)
    | (some (sr, dur), _) =>
      match env.wavLoad with
      | none => (AudioOutcome.raised, false)
      | some y =>
        if y.length = 0 then (AudioOutcome.returned none, false)
        else (AudioOutcome.returned (some ⟨env.mfccMeanOut, env.mfccStdOut, sr, dur⟩), false)

/-- C4 counterexample: at fps = 25 and stride k = 1 the code computes
`max(2, int(3.75)) = 3`, while the claimed formula
`max(2, round(3.75)) = 4`; the two disagree, so the refractory length is
not obtained by rounding to the nearest integer. -/
theorem min_frames_round_cex :
    min_frames_between_blinks 25 1
      ≠ max 2 (round ((25 / (1 : ℚ)) * (15 / 100))).toNat := by
  decide

/-- C4 amended: for every fps > 0 and stride k ≥ 1, the refractory length
equals `max(2, ⌊(fps / k) * 0.15⌋)` — the fractional quantity is truncated
(floored), not rounded to the nearest integer — and is always at least 2. -/
theorem min_frames_trunc (fps : ℚ) (k : ℕ) (hf : 0 < fps) (hk : 1 ≤ k) :
    min_frames_between_blinks fps k = max 2 (⌊(fps / (k : ℚ)) * (15 / 100)⌋).toNat
    ∧ 2 ≤ min_frames_between_blinks fps k := by
  have h0 : 0 ≤ (fps / (k : ℚ)) * (15 / 100) := by positivity
  constructor
  · unfold min_frames_between_blinks pyInt
    rw [if_pos h0]
  · exact le_max_left 2 _

/-- Witness for the amended C4 at fps = 30, k = 5. -/
theorem min_frames_trunc_witness :
    min_frames_between_blinks 30 5 = max 2 (⌊((30 : ℚ) / (5 : ℕ)) * (15 / 100)⌋).toNat
    ∧ 2 ≤ min_frames_between_blinks 30 5 :=
  min_frames_trunc 30 5 (by norm_num) (by norm_num)

/-- C5: on a raw-EAR stream of 20 analysed frames that stays at 0.30
except for a single dip to 0.10 at frame 10, with the default static
threshold 0.21 and the refractory length computed for 30 fps and stride 5,
the blink state machine counts exactly one blink. -/
theorem scenarioA_one_blink :
    blinkCount (21 / 100) (min_frames_between_blinks 30 5)
      ((List.range 20).map (fun i => if i = 10 then (1 / 10 : ℚ) else 3 / 10)) = 1 := by
  decide

/-- C9: the initial state has `prev_ear_above = True` and the refractory
counter at 9999, so whenever the refractory length is at most 9999 and the
smoothed EAR of the very first analysed frame (which equals its raw EAR,
the window holding a single sample, under the static threshold since the
window holds fewer than 5 samples) is below the threshold, a blink is
counted at analysed-frame position 0: the video opens with blink count 1. -/
theorem first_frame_blink (thr e0 : ℚ) (es : List ℚ) (g : ℕ)
    (hg : g ≤ 9999) (h0 : e0 < thr) :
    ∃ rest, blinkPositions thr g (e0 :: es) = 0 :: rest := by
  have hfire : blinkFire thr g initBlinkState e0 = true := by
    have hwin : pushWindow [] e0 = [e0] := by simp [pushWindow]
    have hsm : smoothedEar [e0] = e0 := by simp [smoothedEar]
    have hth : adaptiveThr thr [e0] = thr := by simp [adaptiveThr]
    simp only [blinkFire, initBlinkState, hwin, hsm, hth]
    simp [h0, hg]
  exact ⟨blinkPositionsAux thr g es (blinkNext thr g initBlinkState e0) 1,
    by simp [blinkPositions, blinkPositionsAux, hfire]⟩

/-- Witness for C9: a first-frame raw EAR of 0.10 against the default
static threshold 0.21 with refractory length 2 fires at position 0. -/
theorem first_frame_blink_witness :
    ∃ rest, blinkPositions (21 / 100) 2 [1 / 10] = 0 :: rest :=
  first_frame_blink (21 / 100) (1 / 10) [] 2 (by norm_num) (by norm_num)

/-- C10: a reported frame rate of 0 (or none) is replaced by 30 before any
computation; with the replacement, `minutes_processed` vanishes exactly
when no frame was analysed, so for a zero-fps video with at least one
analysed frame the blink rate equals blinks per minute at an assumed
30 fps, and the raw-blink-count fallback is reached only with zero
analysed frames. -/
theorem zero_fps_fallback (k frames blinks : ℕ) (hk : 1 ≤ k) :
    effectiveFps (some 0) = 30
    ∧ effectiveFps none = 30
    ∧ (minutes_processed (effectiveFps (some 0)) k frames = 0 ↔ frames = 0)
    ∧ (1 ≤ frames →
        avg_blink_rate (effectiveFps (some 0)) k frames blinks
          = (blinks : ℚ) * 1800 / ((frames : ℚ) * (k : ℚ)))
    ∧ (frames = 0 →
        avg_blink_rate (effectiveFps (some 0)) k frames blinks = (blinks : ℚ)) := by
  have heff : effectiveFps (some 0) = 30 := by simp [effectiveFps]
  have hk0 : (0 : ℚ) < (k : ℚ) := by exact_mod_cast hk
  have hmin : minutes_processed 30 k frames = ((frames : ℚ) * (k : ℚ)) / 1800 := by
    simp [minutes_processed]
    norm_num
  refine ⟨heff, by simp [effectiveFps], ?_, ?_, ?_⟩
  · rw [heff, hmin]
    constructor
    · intro h
      rcases div_eq_zero_iff.mp h with h' | h'
      · rcases mul_eq_zero.mp h' with h'' | h''
        · exact_mod_cast h''
        · exact absurd h'' (ne_of_gt hk0)
      · norm_num at h'
    · intro h
      simp [h]
  · intro hfr
    have hfr0 : (0 : ℚ) < (frames : ℚ) := by exact_mod_cast hfr
    have hpos : 0 < minutes_processed 30 k frames := by
      rw [hmin]; positivity
    rw [heff, avg_blink_rate, if_pos hpos, hmin]
    field_simp
  · intro hfr
    have hz : minutes_processed 30 k frames = 0 := by
      rw [hmin, hfr]; norm_num
    rw [heff, avg_blink_rate, hz]
    norm_num

/-- Witness for C10 at k = 5 with 2 analysed frames and 3 blinks, and at
k = 5 with 0 analysed frames and 7 blinks. -/
theorem zero_fps_fallback_witness :
    avg_blink_rate (effectiveFps (some 0)) 5 2 3 = (3 : ℚ) * 1800 / ((2 : ℚ) * (5 : ℚ))
    ∧ avg_blink_rate (effectiveFps (some 0)) 5 0 7 = (7 : ℚ) :=
  ⟨(zero_fps_fallback 5 2 3 (by norm_num)).2.2.2.1 (by norm_num),
   (zero_fps_fallback 5 0 7 (by norm_num)).2.2.2.2 rfl⟩

/-- C1: for every input triple, `to_feature_vector` returns exactly 10
numbers in the fixed order [blink rate, jitter std dev, mfcc mean,
mfcc std, duration, bit rate, avg fps, width, height, audio sample rate];
every slot whose summary (or individual metadata field) is absent is
exactly 0, and every present value is passed through unchanged. -/
theorem to_feature_vector_spec (f : ExtractedFeatures) :
    (to_feature_vector f).length = 10
    ∧ (∀ v, f.video = some v →
        (to_feature_vector f).get? 0 = some v.avg_blink_rate_per_minute
        ∧ (to_feature_vector f).get? 1 = some v.facial_jitter_std_dev)
    ∧ (f.video = none →
        (to_feature_vector f).get? 0 = some 0 ∧ (to_feature_vector f).get? 1 = some 0)
    ∧ (∀ a, f.audio = some a →
        (to_feature_vector f).get? 2 = some a.audio_mfcc_mean
        ∧ (to_feature_vector f).get? 3 = some a.audio_mfcc_std)
    ∧ (f.audio = none →
        (to_feature_vector f).get? 2 = some 0 ∧ (to_feature_vector f).get? 3 = some 0)
    ∧ (∀ m, f.metadata = some m →
        (∀ x, m.duration_seconds = some x → (to_feature_vector f).get? 4 = some x)
        ∧ (m.duration_seconds = none → (to_feature_vector f).get? 4 = some 0)
        ∧ (∀ x, m.bit_rate = some x → (to_feature_vector f).get? 5 = some (x : ℚ))
        ∧ (m.bit_rate = none → (to_feature_vector f).get? 5 = some 0)
        ∧ (∀ x, m.video_avg_fps = some x → (to_feature_vector f).get? 6 = some x)
        ∧ (m.video_avg_fps = none → (to_feature_vector f).get? 6 = some 0)
        ∧ (∀ x, m.video_width = some x → (to_feature_vector f).get? 7 = some (x : ℚ))
        ∧ (m.video_width = none → (to_feature_vector f).get? 7 = some 0)
        ∧ (∀ x, m.video_height = some x → (to_feature_vector f).get? 8 = some (x : ℚ))
        ∧ (m.video_height = none → (to_feature_vector f).get? 8 = some 0)
        ∧ (∀ x, m.audio_sample_rate = some x → (to_feature_vector f).get? 9 = some (x : ℚ))
        ∧ (m.audio_sample_rate = none → (to_feature_vector f).get? 9 = some 0))
    ∧ (f.metadata = none →
        (to_feature_vector f).get? 4 = some 0 ∧ (to_feature_vector f).get? 5 = some 0
        ∧ (to_feature_vector f).get? 6 = some 0 ∧ (to_feature_vector f).get? 7 = some 0
        ∧ (to_feature_vector f).get? 8 = some 0 ∧ (to_feature_vector f).get? 9 = some 0) := by
  refine ⟨rfl, fun v hv => ?_, fun hv => ?_, fun a ha => ?_, fun ha => ?_,
    fun m hm => ?_, fun hm => ?_⟩
  · simp [to_feature_vector, hv]
  · simp [to_feature_vector, hv]
  · simp [to_feature_vector, ha]
  · simp [to_feature_vector, ha]
  · refine ⟨fun x hx => ?_, fun hx => ?_, fun x hx => ?_, fun hx => ?_,
      fun x hx => ?_, fun hx => ?_, fun x hx => ?_, fun hx => ?_,
      fun x hx => ?_, fun hx => ?_, fun x hx => ?_, fun hx => ?_⟩ <;>
      simp [to_feature_vector, hm, hx]
  · simp [to_feature_vector, hm]

/-- Witness for C1 on a feature record with every summary present (all
fields populated) and on a feature record with every summary absent. -/
theorem to_feature_vector_spec_witness :
    (to_feature_vector ⟨some ⟨12, 1 / 20, 7⟩, some ⟨-3, 2, 16000, 5⟩,
        some ⟨some "mp4", some 1000, some (9 / 2), some 64000, true, true, some "h264",
          some 640, some 480, some 30, some "aac", some 44100, some 2⟩⟩).get? 0 = some 12
    ∧ (to_feature_vector ⟨some ⟨12, 1 / 20, 7⟩, some ⟨-3, 2, 16000, 5⟩,
        some ⟨some "mp4", some 1000, some (9 / 2), some 64000, true, true, some "h264",
          some 640, some 480, some 30, some "aac", some 44100, some 2⟩⟩).get? 2 = some (-3)
    ∧ (to_feature_vector ⟨some ⟨12, 1 / 20, 7⟩, some ⟨-3, 2, 16000, 5⟩,
        some ⟨some "mp4", some 1000, some (9 / 2), some 64000, true, true, some "h264",
          some 640, some 480, some 30, some "aac", some 44100, some 2⟩⟩).get? 4 = some (9 / 2)
    ∧ (to_feature_vector ⟨some ⟨12, 1 / 20, 7⟩, some ⟨-3, 2, 16000, 5⟩,
        some ⟨some "mp4", some 1000, some (9 / 2), some 64000, true, true, some "h264",
          some 640, some 480, some 30, some "aac", some 44100, some 2⟩⟩).get? 5
        = some ((64000 : ℤ) : ℚ)
    ∧ (to_feature_vector ⟨none, none, none⟩).length = 10
    ∧ (to_feature_vector ⟨none, none, none⟩).get? 0 = some 0
    ∧ (to_feature_vector ⟨none, none, none⟩).get? 2 = some 0
    ∧ (to_feature_vector ⟨none, none, none⟩).get? 4 = some 0 :=
  ⟨((to_feature_vector_spec _).2.1 _ rfl).1,
   ((to_feature_vector_spec _).2.2.2.1 _ rfl).1,
   ((to_feature_vector_spec _).2.2.2.2.2.1 _ rfl).1 _ rfl,
   ((to_feature_vector_spec _).2.2.2.2.2.1 _ rfl).2.2.1 _ rfl,
   (to_feature_vector_spec ⟨none, none, none⟩).1,
   ((to_feature_vector_spec ⟨none, none, none⟩).2.2.1 rfl).1,
   ((to_feature_vector_spec ⟨none, none, none⟩).2.2.2.2.1 rfl).1,
   ((to_feature_vector_spec ⟨none, none, none⟩).2.2.2.2.2.2 rfl).1⟩

/-- C3: if the authenticity score is at least 80 the summary is exactly
the real-video sentence; otherwise it is the deepfake sentence whose
reason joins with a comma-space exactly the flags that trigger on the
legacy feature values (blink rate below 10, jitter at least 0.2, mfcc
variance at least 0.3), falling back to the fixed phrase when no flag
triggers; in particular score 82 yields the real-video text and score 40
with blink rate 8, jitter 0.1, mfcc std 0.1 yields exactly the low-blink
sentence. -/
theorem summary_text_spec (s b j m : ℚ) :
    (80 ≤ s → summary_text s b j m = "This appears to be a real video.")
    ∧ (s < 80 → b < 10 → 2 / 10 ≤ j → 3 / 10 ≤ m →
        summary_text s b j m =
          "Potential deepfake indicators: low blink rate, high facial jitter, synthetic-sounding audio patterns.")
    ∧ (s < 80 → b < 10 → 2 / 10 ≤ j → m < 3 / 10 →
        summary_text s b j m =
          "Potential deepfake indicators: low blink rate, high facial jitter.")
    ∧ (s < 80 → b < 10 → j < 2 / 10 → 3 / 10 ≤ m →
        summary_text s b j m =
          "Potential deepfake indicators: low blink rate, synthetic-sounding audio patterns.")
    ∧ (s < 80 → b < 10 → j < 2 / 10 → m < 3 / 10 →
        summary_text s b j m = "Potential deepfake indicators: low blink rate.")
    ∧ (s < 80 → 10 ≤ b → 2 / 10 ≤ j → 3 / 10 ≤ m →
        summary_text s b j m =
          "Potential deepfake indicators: high facial jitter, synthetic-sounding audio patterns.")
    ∧ (s < 80 → 10 ≤ b → 2 / 10 ≤ j → m < 3 / 10 →
        summary_text s b j m = "Potential deepfake indicators: high facial jitter.")
    ∧ (s < 80 → 10 ≤ b → j < 2 / 10 → 3 / 10 ≤ m →
        summary_text s b j m =
          "Potential deepfake indicators: synthetic-sounding audio patterns.")
    ∧ (s < 80 → 10 ≤ b → j < 2 / 10 → m < 3 / 10 →
        summary_text s b j m = "Potential deepfake indicators: multiple subtle cues.")
    ∧ summary_text 82 8 (1 / 10) (1 / 10) = "This appears to be a real video."
    ∧ summary_text 40 8 (1 / 10) (1 / 10)
        = "Potential deepfake indicators: low blink rate." := by
  refine ⟨fun hs => ?_, fun hs hb hj hm => ?_, fun hs hb hj hm => ?_,
    fun hs hb hj hm => ?_, fun hs hb hj hm => ?_, fun hs hb hj hm => ?_,
    fun hs hb hj hm => ?_, fun hs hb hj hm => ?_, fun hs hb hj hm => ?_,
    by decide, by decide⟩
  · simp [summary_text, hs]
  · simp [summary_text, summaryParts, hs.not_le, hb, hj, hm, String.intercalate]
    try rfl
  · simp [summary_text, summaryParts, hs.not_le, hb, hj, hm.not_le, String.intercalate]
    try rfl
  · simp [summary_text, summaryParts, hs.not_le, hb, hj.not_le, hm, String.intercalate]
    try rfl
  · simp [summary_text, summaryParts, hs.not_le, hb, hj.not_le, hm.not_le,
      String.intercalate]
    try rfl
  · simp [summary_text, summaryParts, hs.not_le, hb.not_lt, hj, hm, String.intercalate]
    try rfl
  · simp [summary_text, summaryParts, hs.not_le, hb.not_lt, hj, hm.not_le,
      String.intercalate]
    try rfl
  · simp [summary_text, summaryParts, hs.not_le, hb.not_lt, hj.not_le, hm,
      String.intercalate]
    try rfl
  · simp [summary_text, summaryParts, hs.not_le, hb.not_lt, hj.not_le, hm.not_le,
      String.intercalate]
    try rfl

/-- Witness for C3 at the two scenario-D inputs. -/
theorem summary_text_spec_witness :
    summary_text 82 8 (1 / 10) (1 / 10) = "This appears to be a real video."
    ∧ summary_text 40 8 (1 / 10) (1 / 10)
        = "Potential deepfake indicators: low blink rate." :=
  ⟨(summary_text_spec 82 8 (1 / 10) (1 / 10)).1 (by norm_num),
   (summary_text_spec 40 8 (1 / 10) (1 / 10)).2.2.2.2.1 (by norm_num) (by norm_num)
     (by norm_num) (by norm_num)⟩

/-- Invariant of the blink state machine: the counted positions are spaced
at least `g` analysed frames apart, every position lies at or after the
start index, and the first countable position is constrained by the
refractory counter carried in the entry state. -/
theorem blinkPositionsAux_invariant (thr : ℚ) (g : ℕ) :
    ∀ (es : List ℚ) (s : BlinkState) (t : ℕ),
      (blinkPositionsAux thr g es s t).Pairwise (fun a b => a + g ≤ b)
      ∧ ∀ p ∈ blinkPositionsAux thr g es s t,
          t ≤ p ∧ t + g ≤ p + s.frames_since_last_blink := by
  intro es
  induction es with
  | nil =>
    intro s t
    exact ⟨by simp [blinkPositionsAux], by simp [blinkPositionsAux]⟩
  | cons e es ih =>
    intro s t
    by_cases hf : blinkFire thr g s e = true
    · have hfs : g ≤ s.frames_since_last_blink := by
        have h := hf
        simp only [blinkFire, Bool.and_eq_true, decide_eq_true_eq] at h
        exact h.2
      have hnext : (blinkNext thr g s e).frames_since_last_blink = 1 := by
        simp [blinkNext, hf]
      have IH := ih (blinkNext thr g s e) (t + 1)
      have hpos : blinkPositionsAux thr g (e :: es) s t
          = t :: blinkPositionsAux thr g es (blinkNext thr g s e) (t + 1) := by
        simp [blinkPositionsAux, hf]
      rw [hpos]
      constructor
      · refine List.pairwise_cons.mpr ⟨?_, IH.1⟩
        intro q hq
        have h2 := (IH.2 q hq).2
        rw [hnext] at h2
        omega
      · intro p hp
        rcases List.mem_cons.mp hp with rfl | hp'
        · exact ⟨le_refl _, by omega⟩
        · have h1 := (IH.2 p hp').1
          have h2 := (IH.2 p hp').2
          rw [hnext] at h2
          exact ⟨by omega, by omega⟩
    · have hnext : (blinkNext thr g s e).frames_since_last_blink
          = s.frames_since_last_blink + 1 := by
        simp [blinkNext, hf]
      have IH := ih (blinkNext thr g s e) (t + 1)
      have hpos : blinkPositionsAux thr g (e :: es) s t
          = blinkPositionsAux thr g es (blinkNext thr g s e) (t + 1) := by
        simp [blinkPositionsAux, hf]
      rw [hpos]
      refine ⟨IH.1, fun p hp => ?_⟩
      have h1 := (IH.2 p hp).1
      have h2 := (IH.2 p hp).2
      rw [hnext] at h2
      exact ⟨by omega, by omega⟩

/-- A list that is pairwise spaced by at least `g ≥ 1` relates any two of
its members that compare strictly. -/
theorem pairwise_gap_mem {g : ℕ} (hg : 1 ≤ g) :
    ∀ (l : List ℕ), l.Pairwise (fun a b => a + g ≤ b) →
      ∀ i ∈ l, ∀ j ∈ l, i < j → i + g ≤ j := by
  intro l
  induction l with
  | nil => intro _ i hi; simp at hi
  | cons x xs ih =>
    intro hp i hi j hj hij
    rcases List.pairwise_cons.mp hp with ⟨hx, hxs⟩
    rcases List.mem_cons.mp hi with rfl | hi'
    · rcases List.mem_cons.mp hj with rfl | hj'
      · omega
      · exact hx j hj'
    · rcases List.mem_cons.mp hj with rfl | hj'
      · have := hx i hi'
        omega
      · exact ih hxs i hi' j hj' hij

/-- C2: for every raw EAR sample stream, every static threshold, and every
fps and stride, two blinks counted at analysed-frame positions i < j are
at least `min_frames_between_blinks fps k` analysed frames apart: the
refractory invariant holds for the whole smoothing/adaptive-threshold/edge
pipeline. -/
theorem blink_refractory (fps : ℚ) (k : ℕ) (thr : ℚ) (ears : List ℚ) (i j : ℕ)
    (hi : i ∈ blinkPositions thr (min_frames_between_blinks fps k) ears)
    (hj : j ∈ blinkPositions thr (min_frames_between_blinks fps k) ears)
    (hij : i < j) :
    min_frames_between_blinks fps k ≤ j - i := by
  have hg : 1 ≤ min_frames_between_blinks fps k :=
    le_trans (by norm_num) (le_max_left 2 _)
  have hpw : (blinkPositions thr (min_frames_between_blinks fps k) ears).Pairwise
      (fun a b => a + min_frames_between_blinks fps k ≤ b) :=
    (blinkPositionsAux_invariant thr (min_frames_between_blinks fps k) ears
      initBlinkState 0).1
  have := pairwise_gap_mem hg _ hpw i hi j hj hij
  omega

/-- Witness for C2: the stream [0.10, 0.50, 0.01] at 30 fps, stride 5 and
static threshold 0.21 counts blinks at positions 0 and 2, which satisfy
the refractory gap. -/
theorem blink_refractory_witness :
    min_frames_between_blinks 30 5 ≤ 2 - 0 :=
  blink_refractory 30 5 (21 / 100) [1 / 10, 1 / 2, 1 / 100] 0 2
    (by decide) (by decide) (by decide)

/-- C6 counterexample: with both vertical landmark pairs degenerate
(p2 = p6 and p3 = p5) but a horizontal distance of 1, the EAR is 0 while
the horizontal distance is not, so "EAR = 0 exactly when the horizontal
distance is 0" fails. -/
theorem ear_zero_iff_cex :
    ¬ (eye_aspect_ratio ((0 : ℝ), 0) (0, 0) (0, 0) (1, 0) (0, 0) (0, 0) = 0
        ↔ euclidean_distance ((0 : ℝ), 0) (1, 0) = 0) := by
  intro h
  have hd : euclidean_distance ((0 : ℝ), 0) (1, 0) = 1 := by
    simp [euclidean_distance]
  have hzero : euclidean_distance ((0 : ℝ), 0) (0, 0) = 0 := by
    simp [euclidean_distance]
  have hear : eye_aspect_ratio ((0 : ℝ), 0) (0, 0) (0, 0) (1, 0) (0, 0) (0, 0) = 0 := by
    rw [eye_aspect_ratio, if_neg (by rw [hd]; norm_num), hzero]
    norm_num
  have : (1 : ℝ) = 0 := hd ▸ h.mp hear
  norm_num at this

/-- C6 amended: EAR is 0 when the horizontal distance d(p1,p4) is 0;
when the horizontal distance is nonzero, EAR equals
(d(p2,p6) + d(p3,p5)) / (2 * d(p1,p4)), and it is 0 exactly when both
vertical distances are 0 — so EAR = 0 holds iff the horizontal distance is
0 or both vertical distances are 0, not iff the horizontal distance is 0. -/
theorem ear_zero_characterization (p1 p2 p3 p4 p5 p6 : ℝ × ℝ) :
    (euclidean_distance p1 p4 = 0 → eye_aspect_ratio p1 p2 p3 p4 p5 p6 = 0)
    ∧ (euclidean_distance p1 p4 ≠ 0 →
        eye_aspect_ratio p1 p2 p3 p4 p5 p6
          = (euclidean_distance p2 p6 + euclidean_distance p3 p5)
              / (2 * euclidean_distance p1 p4)
        ∧ (eye_aspect_ratio p1 p2 p3 p4 p5 p6 = 0
            ↔ euclidean_distance p2 p6 = 0 ∧ euclidean_distance p3 p5 = 0)) := by
  have hnn : ∀ p q : ℝ × ℝ, 0 ≤ euclidean_distance p q := fun p q =>
    Real.sqrt_nonneg _
  constructor
  · intro h
    simp [eye_aspect_ratio, h]
  · intro h
    have hval : eye_aspect_ratio p1 p2 p3 p4 p5 p6
        = (euclidean_distance p2 p6 + euclidean_distance p3 p5)
            / (2 * euclidean_distance p1 p4) := by
      rw [eye_aspect_ratio, if_neg h]
    refine ⟨hval, ?_⟩
    rw [hval]
    constructor
    · intro hq
      rcases div_eq_zero_iff.mp hq with hnum | hden
      · exact (add_eq_zero_iff_of_nonneg (hnn p2 p6) (hnn p3 p5)).mp hnum
      · exact absurd (by
          rcases mul_eq_zero.mp hden with h2 | h2
          · norm_num at h2
          · exact h2) h
    · intro ⟨h26, h35⟩
      rw [h26, h35]
      norm_num

/-- Witness for the amended C6: the degenerate-horizontal branch at
coincident p1 and p4, and the regular branch at horizontal distance 1 with
degenerate vertical pairs. -/
theorem ear_zero_characterization_witness :
    eye_aspect_ratio ((0 : ℝ), 0) (0, 0) (0, 0) (0, 0) (0, 0) (0, 0) = 0
    ∧ (eye_aspect_ratio ((0 : ℝ), 0) (0, 0) (0, 0) (1, 0) (0, 0) (0, 0)
        = (euclidean_distance ((0 : ℝ), 0) ((0 : ℝ), 0)
            + euclidean_distance ((0 : ℝ), 0) ((0 : ℝ), 0))
            / (2 * euclidean_distance ((0 : ℝ), 0) ((1 : ℝ), 0))
        ∧ (eye_aspect_ratio ((0 : ℝ), 0) (0, 0) (0, 0) (1, 0) (0, 0) (0, 0) = 0
            ↔ euclidean_distance ((0 : ℝ), 0) ((0 : ℝ), 0) = 0
              ∧ euclidean_distance ((0 : ℝ), 0) ((0 : ℝ), 0) = 0)) :=
  ⟨(ear_zero_characterization _ _ _ _ _ _).1 (by simp [euclidean_distance]),
   (ear_zero_characterization _ _ _ _ _ _).2 (by simp [euclidean_distance])⟩

/-- A zero-defaulted mapped optional is nonnegative when the mapped value
is nonnegative whenever present. -/
theorem getD_map_nonneg {α : Type} (o : Option α) (gf : α → ℚ)
    (h : ∀ a, o = some a → 0 ≤ gf a) : 0 ≤ (o.map gf).getD 0 := by
  cases o with
  | none => simp
  | some a => simpa using h a rfl

/-- A zero-defaulted optional metadata field is nonnegative when the field
is nonnegative whenever the record and the field are present. -/
theorem getD_bind_nonneg {α : Type} (o : Option α) (gf : α → Option ℚ)
    (h : ∀ m, o = some m → ∀ x, gf m = some x → 0 ≤ x) :
    0 ≤ (o.bind gf).getD 0 := by
  cases o with
  | none => simp
  | some m =>
    cases hg : gf m with
    | none => simp [Option.bind_eq_bind, hg]
    | some x =>
      have := h m rfl x hg
      simp [Option.bind_eq_bind, hg, this]

/-- Integer-field version of the previous lemma, casting through the
`float(...)` conversion. -/
theorem getD_bind_cast_nonneg {α : Type} (o : Option α) (gf : α → Option ℤ)
    (h : ∀ m, o = some m → ∀ x, gf m = some x → 0 ≤ x) :
    0 ≤ ((o.bind gf).map (fun b => (b : ℚ))).getD 0 := by
  cases o with
  | none => simp
  | some m =>
    cases hg : gf m with
    | none => simp [Option.bind_eq_bind, hg]
    | some x =>
      have hx := h m rfl x hg
      have : (0 : ℚ) ≤ (x : ℚ) := by exact_mod_cast hx
      simp [Option.bind_eq_bind, hg, this]

/-- C7 counterexample: the audio branch stores the raw mean of the MFCC
coefficient grid, which is negative for a grid of negative coefficients,
so slot 2 of the feature vector can be negative: the non-negativity claim
fails. -/
theorem feature_vector_nonneg_cex :
    (to_feature_vector ⟨none, some ⟨npMean [-1], 0, 16000, 0⟩, none⟩).get? 2
      = some (npMean [-1])
    ∧ npMean [-1] < 0 := by
  constructor
  · rfl
  · norm_num [npMean]

/-- C7 amended: the feature vector always has exactly 10 entries, and all
entries are nonnegative provided every present summary field feeding the
vector is nonnegative; the code itself enforces no sign constraint, and
the MFCC mean (slot 2) is legitimately negative for real audio. -/
theorem feature_vector_nonneg_of_nonneg (f : ExtractedFeatures)
    (hv : ∀ v, f.video = some v →
      0 ≤ v.avg_blink_rate_per_minute ∧ 0 ≤ v.facial_jitter_std_dev)
    (ha : ∀ a, f.audio = some a → 0 ≤ a.audio_mfcc_mean ∧ 0 ≤ a.audio_mfcc_std)
    (hm : ∀ m, f.metadata = some m →
      (∀ x, m.duration_seconds = some x → 0 ≤ x)
      ∧ (∀ x, m.bit_rate = some x → 0 ≤ x)
      ∧ (∀ x, m.video_avg_fps = some x → 0 ≤ x)
      ∧ (∀ x, m.video_width = some x → 0 ≤ x)
      ∧ (∀ x, m.video_height = some x → 0 ≤ x)
      ∧ (∀ x, m.audio_sample_rate = some x → 0 ≤ x)) :
    (to_feature_vector f).length = 10 ∧ ∀ x ∈ to_feature_vector f, 0 ≤ x := by
  refine ⟨rfl, ?_⟩
  intro x hx
  simp only [to_feature_vector, List.mem_cons, List.not_mem_nil, or_false] at hx
  rcases hx with rfl | rfl | rfl | rfl | rfl | rfl | rfl | rfl | rfl | rfl
  · exact getD_map_nonneg _ _ (fun v h => (hv v h).1)
  · exact getD_map_nonneg _ _ (fun v h => (hv v h).2)
  · exact getD_map_nonneg _ _ (fun a h => (ha a h).1)
  · exact getD_map_nonneg _ _ (fun a h => (ha a h).2)
  · exact getD_bind_nonneg _ _ (fun m h => (hm m h).1)
  · exact getD_bind_cast_nonneg _ _ (fun m h => (hm m h).2.1)
  · exact getD_bind_nonneg _ _ (fun m h => (hm m h).2.2.1)
  · exact getD_bind_cast_nonneg _ _ (fun m h => (hm m h).2.2.2.1)
  · exact getD_bind_cast_nonneg _ _ (fun m h => (hm m h).2.2.2.2.1)
  · exact getD_bind_cast_nonneg _ _ (fun m h => (hm m h).2.2.2.2.2)

/-- Witness for the amended C7 on the all-absent feature record, whose
field hypotheses hold vacuously. -/
theorem feature_vector_nonneg_of_nonneg_witness :
    (to_feature_vector ⟨none, none, none⟩).length = 10
    ∧ ∀ x ∈ to_feature_vector ⟨none, none, none⟩, 0 ≤ x :=
  feature_vector_nonneg_of_nonneg ⟨none, none, none⟩
    (fun _ h => Option.noConfusion h) (fun _ h => Option.noConfusion h)
    (fun _ h => Option.noConfusion h)

/-- C8 counterexample: when the direct decode raises and the ffmpeg
re-encode call itself raises, `_extract_audio_with_ffmpeg` returns None
after `mkstemp` without removing the temporary WAV file, so audio
extraction returns (with the null absence signal) while the temporary file
still exists: cleanup is not unconditional on every failure path. -/
theorem temp_wav_leak_cex :
    (extract_audio_features ⟨true, true, none, none, none, 0, 0⟩).2 = true
    ∧ (extract_audio_features ⟨true, true, none, none, none, 0, 0⟩).1
        = AudioOutcome.returned none := by
  constructor <;> rfl

/-- C8 amended: the temporary WAV file survives audio extraction exactly
when the direct decode raises, the ffmpeg module is available, and the
re-encode call raises; in particular whenever the re-encode call does not
raise the temporary file is removed before extraction returns (the
try/finally removes it on both branches of the fallback decode), and
whenever the re-encode step yields nothing the extraction signals absence
with a null return. -/
theorem temp_wav_cleanup (env : AudioEnv) :
    ((extract_audio_features env).2 = true
      ↔ env.directLoad = none ∧ env.ffmpegAvailable = true ∧ env.runRaises = true)
    ∧ (env.runRaises = false → (extract_audio_features env).2 = false)
    ∧ (env.directLoad = none → (extract_audio_with_ffmpeg env).1 = none →
        (extract_audio_features env).1 = AudioOutcome.returned none) := by
  obtain ⟨fa, rr, pd, dl, wl, mm, ms⟩ := env
  cases dl with
  | some y =>
    by_cases hy : y.length = 0 <;>
      simp [extract_audio_features, extract_audio_with_ffmpeg, hy]
  | none =>
    cases fa <;> cases rr <;> cases wl <;>
      simp [extract_audio_features, extract_audio_with_ffmpeg]
    all_goals
      split <;> simp

/-- Witness for the amended C8: a successful re-encode followed by a
successful fallback decode leaves no temporary file, and an unavailable
ffmpeg module makes the fallback signal absence with a null return. -/
theorem temp_wav_cleanup_witness :
    (extract_audio_features ⟨true, false, some 2, none, some [1 / 2], 0, 0⟩).2 = false
    ∧ (extract_audio_features ⟨false, false, none, none, none, 0, 0⟩).1
        = AudioOutcome.returned none :=
  ⟨(temp_wav_cleanup _).2.1 rfl, (temp_wav_cleanup _).2.2 rfl rfl⟩

end NotReally
